import Mathlib

/-!
# Github-Sentinel: verification of the update-fetch-and-report pipeline

Shallow embedding of the pipeline of the Github-Sentinel repository:
`src/github_client/client.py`, `src/subscription/manager.py`,
`src/notifier/file_notifier.py`, `src/llm/reporter.py`,
`src/scheduler/scheduler.py`, and the batch loops of `src/main.py`
(`run_once`) and `src/app.py` (`run_and_stream`).

External collaborators (the GitHub REST API, the LLM endpoint, the file
system, the clock, ISO-8601 time parsing and the apscheduler library) are
modelled as oracles or explicit parameters; the code of the repository is
translated function by function.
-/

namespace Sentinel

/-! ## Raw API data (what the remote endpoints return, one record per JSON
object; field names follow the JSON keys the code reads) -/

/-- One element of the JSON array returned by `GET /repos/{owner}/{repo}/releases`.
`body` is `Option` because the JSON value may be `null` (the code reads
`r.get("body") or ""`). -/
structure RawRelease where
  tag_name : String
  name : String
  html_url : String
  published_at : String
  body : Option String
deriving Repr, DecidableEq

/-- One element of the array returned by the issues endpoint.
`pull_request` records whether the JSON object carries a `"pull_request"`
key (the issues API mixes pull requests in; the code tests
`"pull_request" not in i`). `user` is the JSON path `i["user"]["login"]`. -/
structure RawIssue where
  number : Nat
  title : String
  state : String
  html_url : String
  created_at : String
  updated_at : String
  user : String
  pull_request : Bool
deriving Repr, DecidableEq

/-- One element of the array returned by the pulls endpoint. `updated_at` is
the ISO-8601 timestamp string the code parses with `datetime.fromisoformat`;
`user` is `pr["user"]["login"]`. -/
structure RawPR where
  number : Nat
  title : String
  state : String
  html_url : String
  created_at : String
  updated_at : String
  user : String
  merged_at : Option String
deriving Repr, DecidableEq

/-- One element of the array returned by the commits endpoint. `message` is
the JSON path `c["commit"]["message"]`, `date` is
`c["commit"]["committer"]["date"]`, `author` is `c["commit"]["author"]["name"]`. -/
structure RawCommit where
  sha : String
  message : String
  html_url : String
  date : String
  author : String
deriving Repr, DecidableEq

/-- The remote GitHub API, modelled as the four response arrays the server
returns for the four requests one `fetch_updates` call can make. -/
structure Remote where
  releases : List RawRelease
  issues : List RawIssue
  pulls : List RawPR
  commits : List RawCommit
deriving Repr

/-! ## Normalized items (the dicts the client builds) -/

/-- The dict built per release in `GitHubClient.get_releases`. -/
structure ReleaseItem where
  tag : String
  name : String
  url : String
  published_at : String
  body : String
deriving Repr, DecidableEq

/-- The dict built per issue in `GitHubClient.get_issues`. -/
structure IssueItem where
  number : Nat
  title : String
  state : String
  url : String
  created_at : String
  updated_at : String
  user : String
deriving Repr, DecidableEq

/-- The dict built per pull request in `GitHubClient.get_pull_requests`. -/
structure PRItem where
  number : Nat
  title : String
  state : String
  url : String
  created_at : String
  updated_at : String
  user : String
  merged : Bool
deriving Repr, DecidableEq

/-- The dict built per commit in `GitHubClient.get_commits`. -/
structure CommitItem where
  sha : String
  message : String
  url : String
  date : String
  author : String
deriving Repr, DecidableEq

/-- An element of `updates["items"]`: the four item shapes, tagged the way
the `"type"` field tags the dicts. -/
inductive UpdateItem where
  | release : ReleaseItem → UpdateItem
  | issue : IssueItem → UpdateItem
  | pull_request : PRItem → UpdateItem
  | commit : CommitItem → UpdateItem
deriving Repr, DecidableEq

/-! ## GitHubClient -/

/-- The query parameters `get_releases` sends: `{"per_page": limit}`.
There is no `"since"` parameter, so the request is not time-windowed. -/
def releases_request_params (limit : Nat) : List (String × String) :=
  [("per_page", toString limit)]

/-- The default of the `limit` keyword of `get_releases`. -/
def DEFAULT_RELEASE_LIMIT : Nat := 5

/-- Python string slicing `s[:n]`: the first `n` characters. -/
def str_take (s : String) (n : Nat) : String :=
  String.mk (s.data.take n)

/-- The per-release normalization of `get_releases`: the body is
`(r.get("body") or "")[:500]`. -/
def toReleaseItem (r : RawRelease) : ReleaseItem :=
  { tag := r.tag_name
  , name := r.name
  , url := r.html_url
  , published_at := r.published_at
  , body := str_take (r.body.getD "") 500 }

/-- `GitHubClient.get_releases`, applied to the array the server returned. -/
def get_releases (data : List RawRelease) : List ReleaseItem :=
  data.map toReleaseItem

/-- `GitHubClient.get_issues`, applied to the array the server returned:
keep entries without a `"pull_request"` key, normalize fields. -/
def get_issues (data : List RawIssue) : List IssueItem :=
  (data.filter fun i => !i.pull_request).map fun i =>
    { number := i.number
    , title := i.title
    , state := i.state
    , url := i.html_url
    , created_at := i.created_at
    , updated_at := i.updated_at
    , user := i.user }

/-- The dict built per pull request inside the loop of `get_pull_requests`:
`merged` is `pr.get("merged_at") is not None`. -/
def toPRItem (pr : RawPR) : PRItem :=
  { number := pr.number
  , title := pr.title
  , state := pr.state
  , url := pr.html_url
  , created_at := pr.created_at
  , updated_at := pr.updated_at
  , user := pr.user
  , merged := pr.merged_at.isSome }

/-- The `for pr in data: ... if updated < cutoff: break ...` loop of
`get_pull_requests`. `parseTime` models `datetime.fromisoformat` (time as
seconds); the loop stops at the first item strictly older than the cutoff. -/
def prLoop (parseTime : String → Int) (cutoff : Int) : List RawPR → List PRItem
  | [] => []
  | pr :: rest =>
    if parseTime pr.updated_at < cutoff then []
    else toPRItem pr :: prLoop parseTime cutoff rest

/-- `GitHubClient.get_pull_requests`: cutoff is
`datetime.now(utc) - timedelta(days=days)`, modelled in seconds. -/
def get_pull_requests (parseTime : String → Int) (now : Int) (days : Nat)
    (data : List RawPR) : List PRItem :=
  prLoop parseTime (now - (days : Int) * 86400) data

/-- `message.split("\n")[0]`: everything before the first newline. -/
def first_line (s : String) : String :=
  String.mk (s.data.takeWhile fun c => c != '\n')

/-- `GitHubClient.get_commits`, applied to the array the server returned:
7-character short sha, first line of the commit message. -/
def get_commits (data : List RawCommit) : List CommitItem :=
  data.map fun c =>
    { sha := str_take c.sha 7
    , message := first_line c.message
    , url := c.html_url
    , date := c.date
    , author := c.author }

/-- A subscription dict as stored in the subscription file and passed to
`fetch_updates`: `label` and `track` are `Option` because
`subscription.get(...)` distinguishes an absent key from a present one. -/
structure SubscriptionDict where
  owner : String
  repo : String
  label : Option String
  track : Option (List String)
deriving Repr, DecidableEq

/-- The `updates` dict `fetch_updates` returns. -/
structure FetchResult where
  owner : String
  repo : String
  label : String
  fetched_at : String
  items : List UpdateItem
deriving Repr, DecidableEq

/-- `GitHubClient.fetch_updates`: the tracked-category list is
`subscription.get("track", ["releases", "issues", "pull_requests", "commits"])`
(the default applies only when the key is absent), and the enabled
categories' items are appended in the fixed order
releases, issues, pull_requests, commits. -/
def fetch_updates (parseTime : String → Int) (remote : Remote) (now : Int)
    (days : Nat) (fetched_at : String) (sub : SubscriptionDict) : FetchResult :=
  let track := sub.track.getD ["releases", "issues", "pull_requests", "commits"]
  let items :=
    (if "releases" ∈ track then (get_releases remote.releases).map UpdateItem.release else [])
    ++ (if "issues" ∈ track then (get_issues remote.issues).map UpdateItem.issue else [])
    ++ (if "pull_requests" ∈ track then
          (get_pull_requests parseTime now days remote.pulls).map UpdateItem.pull_request
        else [])
    ++ (if "commits" ∈ track then (get_commits remote.commits).map UpdateItem.commit else [])
  { owner := sub.owner
  , repo := sub.repo
  , label := sub.label.getD (sub.owner ++ "/" ++ sub.repo)
  , fetched_at := fetched_at
  , items := items }

/-! ## SubscriptionManager (`src/subscription/manager.py`) -/

/-- A subscription entry as built by `add_subscription` (all four keys set). -/
structure Subscription where
  owner : String
  repo : String
  label : String
  track : List String
deriving Repr, DecidableEq

/-- The default of the `track` keyword of `add_subscription`
(`track = ["releases", "issues", "pull_requests"]` when `None` is passed). -/
def default_track : List String := ["releases", "issues", "pull_requests"]

/-- The entry dict appended by `add_subscription`: the stored label is
`label or f"{owner}/{repo}"` (an empty label falls back to `owner/repo`). -/
def mk_entry (owner repo label : String) (track : List String) : Subscription :=
  { owner := owner
  , repo := repo
  , label := if label = "" then owner ++ "/" ++ repo else label
  , track := track }

/-- `SubscriptionManager.add_subscription` acting on the in-memory list:
if an entry with the same `(owner, repo)` exists the list is unchanged,
otherwise the new entry is appended. -/
def add_subscription (subs : List Subscription) (owner repo label : String)
    (track : Option (List String)) : List Subscription :=
  let tr := track.getD default_track
  if subs.any fun s => s.owner == owner && s.repo == repo then subs
  else subs ++ [mk_entry owner repo label tr]

/-! ## The subscription file (`_load` / `_save`)

`_save` writes `self._data` as a JSON document and `_load` reads it back
(`json.dump` / `json.load`); an absent file loads as
`{"subscriptions": []}`. The file content is modelled as a JSON value. -/

/-- A JSON value. -/
inductive Json where
  | str : String → Json
  | num : Int → Json
  | bool : Bool → Json
  | null : Json
  | arr : List Json → Json
  | obj : List (String × Json) → Json

/-- Key lookup in a JSON object (`dict` access / `dict.get`). -/
def get_field (fs : List (String × Json)) (k : String) : Option Json :=
  match fs with
  | [] => none
  | (k', v) :: rest => if k' == k then some v else get_field rest k

/-- The JSON encoding of one subscription entry, as `json.dump` serializes
the dict built by `add_subscription`. -/
def encode_sub (s : Subscription) : Json :=
  Json.obj
    [ ("owner", Json.str s.owner)
    , ("repo", Json.str s.repo)
    , ("label", Json.str s.label)
    , ("track", Json.arr (s.track.map Json.str)) ]

/-- The JSON document `_save` writes: `{"subscriptions": [...]}`. -/
def encode_data (subs : List Subscription) : Json :=
  Json.obj [("subscriptions", Json.arr (subs.map encode_sub))]

/-- Reading a JSON array of strings back into a `track` list. -/
def as_str_list : List Json → Option (List String)
  | [] => some []
  | Json.str s :: rest =>
    match as_str_list rest with
    | some l => some (s :: l)
    | none => none
  | _ :: _ => none

/-- Reading one subscription entry back from JSON (the field reads the
code performs on each entry dict). -/
def decode_sub : Json → Option Subscription
  | Json.obj fs =>
    match get_field fs "owner", get_field fs "repo",
          get_field fs "label", get_field fs "track" with
    | some (Json.str o), some (Json.str r), some (Json.str l), some (Json.arr tr) =>
      match as_str_list tr with
      | some ts => some { owner := o, repo := r, label := l, track := ts }
      | none => none
    | _, _, _, _ => none
  | _ => none

/-- Reading the subscription array back from JSON, entry by entry. -/
def decode_subs : List Json → Option (List Subscription)
  | [] => some []
  | j :: rest =>
    match decode_sub j, decode_subs rest with
    | some s, some l => some (s :: l)
    | _, _ => none

/-- The file after `SubscriptionManager._save` of a subscription list
(`none` models an absent file). -/
def manager_save (subs : List Subscription) : Option Json :=
  some (encode_data subs)

/-- `SubscriptionManager._load` followed by `list_subscriptions` on a fresh
manager: an absent file yields `[]`; a present file yields the
`"subscriptions"` entry (defaulting to `[]` when the key is absent),
decoded entry by entry; `none` models the shapes on which the code's
field accesses would fail. -/
def manager_load (file : Option Json) : Option (List Subscription) :=
  match file with
  | none => some []
  | some (Json.obj fs) =>
    match get_field fs "subscriptions" with
    | some (Json.arr js) => decode_subs js
    | none => some []
    | some _ => none
  | some _ => none

/-! ## FileNotifier (`src/notifier/file_notifier.py`) -/

/-- The positional/keyword parameters `FileNotifier.send` declares
(besides `self`): `content` and `title` only. -/
def fileNotifier_send_params : List String := ["content", "title"]

/-- The keyword arguments `run_once` (src/main.py line 79) and
`run_and_stream` (src/app.py line 229) pass to `notifier.send` besides
the positional report text. -/
def run_once_send_kwargs : List String := ["title", "repo_slug"]

/-- Python call semantics: a call is accepted only when every keyword
argument names a declared parameter (otherwise `TypeError`). -/
def kwargs_accepted (params kwargs : List String) : Bool :=
  kwargs.all fun k => params.contains k

/-- A report file on disk. -/
structure WrittenFile where
  filename : String
  text : String
deriving Repr, DecidableEq

/-- `FileNotifier._report_filename`: `{pre}_{UTC timestamp}.md`; `send`
calls it with the default `pre = "report"`. -/
def report_filename (pre ts : String) : String :=
  pre ++ "_" ++ ts ++ ".md"

/-- `FileNotifier.send` on the file it writes: the filename uses the
default prefix `"report"`, and the text is the header (H1 title line,
generation-time line, horizontal rule) followed by the body. `ts` and
`fmtTime` are the two `strftime` renderings of the current UTC time. -/
def fileNotifier_send (content title ts fmtTime : String) : WrittenFile :=
  { filename := report_filename "report" ts
  , text := "# " ++ title ++ "\n\n生成时间：" ++ fmtTime ++ "\n\n---\n\n" ++ content }

/-! ## LLMReporter (`src/llm/reporter.py`) -/

/-- The per-repository section of `generate_digest`:
`f"# {label}\n\n{report}"`. The remote call `generate_report` is the
oracle `gen`. -/
def digest_section (gen : FetchResult → String) (u : FetchResult) : String :=
  "# " ++ u.label ++ "\n\n" ++ gen u

/-- `LLMReporter.generate_digest`: one `generate_report` call per element
of `all_updates`, sections accumulated in input order (`parts.append`),
joined with `"\n\n---\n\n"`. -/
def generate_digest (gen : FetchResult → String) (all_updates : List FetchResult) : String :=
  let parts := all_updates.foldl (fun acc u => acc ++ [digest_section gen u]) []
  String.intercalate "\n\n---\n\n" parts

/-! ## The batch report loops of `run_once` (src/main.py) and
`run_and_stream` (src/app.py)

The remote generation call is the oracle `gen`; `Except.error` models a
raised exception. Each loop body calls `reporter.generate_report` and then
`notifier.send(report, title=..., repo_slug=...)`; the send call site is
modelled below including its keyword binding, since `FileNotifier.send`
declares no `repo_slug` parameter. -/

/-- The title `run_once` / `run_and_stream` pass to `notifier.send`. -/
def report_title (u : FetchResult) : String := u.label ++ " 报告"

/-- The call `notifier.send(report, title=..., repo_slug=...)` both batch
loops make, under Python keyword binding: a keyword naming no declared
parameter raises `TypeError` before the body runs; otherwise the file is
written and its path returned. `ts` and `fmtTime` are the `strftime`
renderings of the current UTC time inside `send`. -/
def notifier_send_call (report title ts fmtTime : String) :
    Except String WrittenFile :=
  if kwargs_accepted fileNotifier_send_params run_once_send_kwargs
  then Except.ok (fileNotifier_send report title ts fmtTime)
  else Except.error "TypeError"

/-- The report loop of `run_once` (src/main.py lines 74-80): no
`try/except` around the body, so the first raised exception — a
generation failure, or the `TypeError` of the `notifier.send` call —
aborts the loop. Returns the files written before the abort and whether
the loop aborted with an unhandled exception. -/
def run_once_loop (gen : FetchResult → Except String String) (ts fmtTime : String) :
    List FetchResult → List WrittenFile × Bool
  | [] => ([], false)
  | u :: rest =>
    match gen u with
    | Except.error _ => ([], true)
    | Except.ok r =>
      match notifier_send_call r (report_title u) ts fmtTime with
      | Except.error _ => ([], true)
      | Except.ok w =>
        let later := run_once_loop gen ts fmtTime rest
        (w :: later.1, later.2)

/-- The report loop of `run_and_stream` (src/app.py lines 221-235): the
body — the generation call followed by the `notifier.send` call — is
wrapped in `try/except`, so a failed subscription is logged and skipped
and the loop always continues with the rest. Returns the labels of the
attempted subscriptions in order (the per-iteration log line) and the
files actually saved (`saved_paths`). -/
def run_and_stream_loop (gen : FetchResult → Except String String) (ts fmtTime : String) :
    List FetchResult → List String × List WrittenFile
  | [] => ([], [])
  | u :: rest =>
    let later := run_and_stream_loop gen ts fmtTime rest
    match gen u with
    | Except.error _ => (u.label :: later.1, later.2)
    | Except.ok r =>
      match notifier_send_call r (report_title u) ts fmtTime with
      | Except.error _ => (u.label :: later.1, later.2)
      | Except.ok w => (u.label :: later.1, w :: later.2)

/-! ## SentinelScheduler (`src/scheduler/scheduler.py`) -/

/-- The trigger `_build_trigger` computes, by its cron fields:
`day_of_week` (`some 0` encodes apscheduler's `"mon"`, `none` no weekday
constraint), `hour` and `minute`. -/
inductive Trigger where
  | cron : Option Nat → Nat → Nat → Trigger
deriving Repr, DecidableEq

/-- `SentinelScheduler._build_trigger`: `"weekly"` constrains the weekday
to Monday; any other interval (the `daily` default branch) does not. -/
def build_trigger (interval : String) (hour minute : Nat) : Trigger :=
  if interval == "weekly" then Trigger.cron (some 0) hour minute
  else Trigger.cron none hour minute

/-- A firing instant, by local weekday (0 = Monday … 6 = Sunday), hour
and minute. -/
structure Instant where
  weekday : Nat
  hour : Nat
  minute : Nat
deriving Repr, DecidableEq

/-- Semantics of the external apscheduler `CronTrigger` on the fields the
code sets: the trigger fires at an instant exactly when every constrained
field matches (an unset `day_of_week` matches every weekday). -/
def trigger_fires (t : Trigger) (i : Instant) : Bool :=
  match t with
  | Trigger.cron dow h m =>
    (match dow with
     | none => true
     | some d => i.weekday == d)
    && i.hour == h && i.minute == m

/-- Python `str.split(sep)` for a one-character separator, on the
character list (empty segments are kept, as in Python). -/
def split_on_char (c : Char) : List Char → List (List Char)
  | [] => [[]]
  | x :: xs =>
    if x == c then [] :: split_on_char c xs
    else
      match split_on_char c xs with
      | [] => [[x]]
      | g :: gs => (x :: g) :: gs

/-- Digit accumulation for `parse_nat`. -/
def parse_nat_aux : List Char → Nat → Option Nat
  | [], acc => some acc
  | c :: cs, acc =>
    if c.isDigit then parse_nat_aux cs (acc * 10 + (c.toNat - 48)) else none

/-- Python `int(s)` on a decimal-digit string: `none` models the
`ValueError` on an empty or non-numeric string. -/
def parse_nat (cs : List Char) : Option Nat :=
  match cs with
  | [] => none
  | _ => parse_nat_aux cs 0

/-- The `hour, minute = map(int, time_str.split(":"))` parse of the
scheduler constructor; `none` models the exception when the string is not
two integers separated by `":"`. -/
def parse_time_str (s : String) : Option (Nat × Nat) :=
  match (split_on_char ':' s.data).map parse_nat with
  | [some h, some m] => some (h, m)
  | _ => none

/-- The state a `SentinelScheduler` holds after construction. -/
structure SchedulerState where
  interval : String
  hour : Nat
  minute : Nat
deriving Repr, DecidableEq

/-- `SentinelScheduler.__init__`. -/
def mk_scheduler (interval time_str : String) : Option SchedulerState :=
  (parse_time_str time_str).map fun hm =>
    { interval := interval, hour := hm.1, minute := hm.2 }

/-- The trigger a constructed scheduler registers its job against. -/
def scheduler_trigger (st : SchedulerState) : Trigger :=
  build_trigger st.interval st.hour st.minute

/-! ## Concrete instances used to exercise the definitions -/

/-- A concrete stand-in for `datetime.fromisoformat` on the timestamp
strings of the concrete instances below: decimal seconds. -/
def demo_parse (s : String) : Int :=
  ((parse_nat s.data).getD 0 : Int)

/-- A remote with one release and nothing else. -/
def c1_remote : Remote :=
  { releases := [⟨"v1.0", "First", "http://u", "2026-01-01", some "notes"⟩]
  , issues := [], pulls := [], commits := [] }

/-- A subscription whose `track` key is present but empty. -/
def c1_sub_empty_track : SubscriptionDict :=
  { owner := "acme", repo := "widget", label := none, track := some [] }

/-- The same subscription tracking the three default categories. -/
def c1_sub_default3 : SubscriptionDict :=
  { owner := "acme", repo := "widget", label := none
  , track := some ["releases", "issues", "pull_requests"] }

/-- A fetch result for owner/repo with no items. -/
def demo_fr (o r : String) : FetchResult :=
  { owner := o, repo := r, label := o ++ "/" ++ r, fetched_at := "t", items := [] }

/-- A generation oracle that fails exactly on owner `"acme"`. -/
def c2_gen : FetchResult → Except String String := fun u =>
  if u.owner == "acme" then Except.error "GenerationError"
  else Except.ok ("report " ++ u.label)

/-- A generation oracle that succeeds on every subscription. -/
def c2_good_gen : FetchResult → Except String String := fun u =>
  Except.ok ("report " ++ u.label)

/-- A pull request, varying only in number and update timestamp. -/
def c4_pr (n : Nat) (ts : String) : RawPR :=
  { number := n, title := "t", state := "open", html_url := "u"
  , created_at := "c", updated_at := ts, user := "alice", merged_at := none }

/-- Three pull requests in descending update-time order. -/
def c4_data : List RawPR := [c4_pr 3 "300", c4_pr 2 "200", c4_pr 1 "100"]

/-- A remote with two releases (one with a `null` body). -/
def c8_remote : Remote :=
  { releases := [⟨"v1", "one", "u1", "p1", some "b1"⟩, ⟨"v2", "two", "u2", "p2", none⟩]
  , issues := [⟨1, "i", "open", "iu", "ic", "iup", "bob", false⟩]
  , pulls := [c4_pr 9 "999"]
  , commits := [⟨"abcdefgh123", "line1\nline2", "cu", "cd", "carol"⟩] }

/-- A subscription tracking only releases. -/
def c8_sub : SubscriptionDict :=
  { owner := "acme", repo := "widget", label := some "Widget"
  , track := some ["releases"] }

/-- A remote with one element of each kind. -/
def c10_remote : Remote :=
  { releases := [⟨"v9", "nine", "ru", "rp", some "rb"⟩]
  , issues := [⟨4, "iss", "open", "iu", "ic", "iup", "dave", false⟩
              , ⟨5, "pr-as-issue", "open", "ju", "jc", "jup", "erin", true⟩]
  , pulls := [c4_pr 7 "700"]
  , commits := [⟨"0123456789ab", "first\nsecond", "cu2", "cd2", "frank"⟩] }

/-- A subscription dict without a `track` key. -/
def c10_sub : SubscriptionDict :=
  { owner := "acme", repo := "widget", label := none, track := none }

/-! ## Theorems -/

/-- The accumulating `parts.append` loop of `generate_digest` builds the
per-subscription sections in input order. -/
theorem digest_foldl_eq_map (gen : FetchResult → String) (l : List FetchResult)
    (acc : List String) :
    l.foldl (fun a u => a ++ [digest_section gen u]) acc
      = acc ++ l.map (digest_section gen) := by
  induction l generalizing acc with
  | nil => simp
  | cons x xs ih => simp [List.foldl_cons, ih]

/-- C7: `generate_digest` on the empty list returns the empty document;
on any list it produces one `# label`-headed section per fetch result, in
input order, joined by the `---` separator. -/
theorem generate_digest_spec (gen : FetchResult → String) (l : List FetchResult) :
    generate_digest gen [] = ""
    ∧ generate_digest gen l
        = String.intercalate "\n\n---\n\n" (l.map (digest_section gen)) := by
  constructor
  · rfl
  · unfold generate_digest
    rw [digest_foldl_eq_map]
    rfl

/-- Decoding a JSON string array built from a string list recovers the list. -/
theorem as_str_list_map (l : List String) :
    as_str_list (l.map Json.str) = some l := by
  induction l with
  | nil => rfl
  | cons x xs ih => simp [as_str_list, ih]

/-- Decoding the JSON encoding of one subscription entry recovers it. -/
theorem decode_sub_encode_sub (s : Subscription) :
    decode_sub (encode_sub s) = some s := by
  simp [decode_sub, encode_sub, get_field, as_str_list_map]

/-- Decoding an encoded subscription array recovers the ordered list. -/
theorem decode_subs_map (l : List Subscription) :
    decode_subs (l.map encode_sub) = some l := by
  induction l with
  | nil => rfl
  | cons x xs ih => simp [decode_subs, decode_sub_encode_sub, ih]

/-- C6: `_save` followed by a fresh `_load` plus `list_subscriptions`
yields the identical ordered subscription list. -/
theorem subscription_store_round_trip (subs : List Subscription) :
    manager_load (manager_save subs) = some subs := by
  simp [manager_load, manager_save, encode_data, get_field, decode_subs_map]

/-- Every `notifier.send(report, title=..., repo_slug=...)` call raises
`TypeError`: the `repo_slug` keyword names no declared parameter. -/
theorem notifier_send_call_raises (report title ts fmtTime : String) :
    notifier_send_call report title ts fmtTime = Except.error "TypeError" :=
  rfl

/-- C2: the `run_and_stream` loop's per-subscription `try/except` does
keep one failure from stopping the rest — every subscription is always
attempted — but no report is ever saved, because every `notifier.send`
call raises `TypeError`; the `run_once` loop is unguarded and aborts at
its first subscription with nothing written, even when every generation
succeeds. Both loops are evaluated at a concrete two-subscription batch,
with every generation succeeding and with the first one failing. -/
theorem batch_reports_never_written :
    (∀ (gen : FetchResult → Except String String) (ts ft : String)
      (l : List FetchResult),
      run_and_stream_loop gen ts ft l = (l.map FetchResult.label, []))
    ∧ (∀ (gen : FetchResult → Except String String) (ts ft : String)
        (u : FetchResult) (rest : List FetchResult),
        run_once_loop gen ts ft (u :: rest) = ([], true))
    ∧ run_once_loop c2_good_gen "ts" "ft" [demo_fr "acme" "widget", demo_fr "foo" "bar"]
        = ([], true)
    ∧ run_and_stream_loop c2_good_gen "ts" "ft" [demo_fr "acme" "widget", demo_fr "foo" "bar"]
        = (["acme/widget", "foo/bar"], [])
    ∧ run_once_loop c2_gen "ts" "ft" [demo_fr "acme" "widget", demo_fr "foo" "bar"]
        = ([], true)
    ∧ run_and_stream_loop c2_gen "ts" "ft" [demo_fr "acme" "widget", demo_fr "foo" "bar"]
        = (["acme/widget", "foo/bar"], []) := by
  have hstream : ∀ (gen : FetchResult → Except String String) (ts ft : String)
      (l : List FetchResult),
      run_and_stream_loop gen ts ft l = (l.map FetchResult.label, []) := by
    intro gen ts ft l
    induction l with
    | nil => rfl
    | cons u rest ih =>
      cases hg : gen u <;>
        simp [run_and_stream_loop, hg, notifier_send_call_raises, ih]
  have honce : ∀ (gen : FetchResult → Except String String) (ts ft : String)
      (u : FetchResult) (rest : List FetchResult),
      run_once_loop gen ts ft (u :: rest) = ([], true) := by
    intro gen ts ft u rest
    cases hg : gen u <;>
      simp [run_once_loop, hg, notifier_send_call_raises]
  exact ⟨hstream, honce, honce c2_good_gen "ts" "ft" _ _,
    hstream c2_good_gen "ts" "ft" _, honce c2_gen "ts" "ft" _ _,
    hstream c2_gen "ts" "ft" _⟩

/-- C1 (amended): a subscription whose `track` key is present but empty
fetches no categories at all — `FetchResult.items` is empty (the default
category list applies only when the key is absent). -/
theorem fetch_updates_empty_track_empty_items (parseTime : String → Int)
    (remote : Remote) (now : Int) (days : Nat) (fa : String)
    (sub : SubscriptionDict) (h : sub.track = some []) :
    (fetch_updates parseTime remote now days fa sub).items = [] := by
  simp [fetch_updates, h]

/-- C1 counterexample: with a remote holding one release, an
empty-`track` subscription yields an empty item list, while tracking the
three default categories yields a non-empty one — the empty list is not
treated as the default. -/
theorem fetch_updates_empty_track_counterexample :
    (fetch_updates demo_parse c1_remote 0 1 "t" c1_sub_empty_track).items = []
    ∧ (fetch_updates demo_parse c1_remote 0 1 "t" c1_sub_default3).items ≠ [] :=
  ⟨rfl, by decide⟩

/-- C1 witness: the amended statement at a concrete empty-`track`
subscription. -/
theorem fetch_updates_empty_track_empty_items_witness :
    c1_sub_empty_track.track = some []
    ∧ (fetch_updates demo_parse c1_remote 0 1 "t" c1_sub_empty_track).items = [] :=
  ⟨rfl, fetch_updates_empty_track_empty_items demo_parse c1_remote 0 1 "t"
    c1_sub_empty_track rfl⟩

/-- The pull-request loop always returns the longest prefix of items not
older than the cutoff (it stops at the first older item). -/
theorem prLoop_eq_takeWhile (parseTime : String → Int) (cutoff : Int)
    (data : List RawPR) :
    prLoop parseTime cutoff data
      = (data.takeWhile fun pr => cutoff ≤ parseTime pr.updated_at).map toPRItem := by
  induction data with
  | nil => rfl
  | cons pr rest ih =>
    by_cases hc : parseTime pr.updated_at < cutoff
    · simp [prLoop, hc, List.takeWhile_cons, not_le.mpr hc]
    · simp [prLoop, hc, List.takeWhile_cons, not_lt.mp hc, ih]

/-- On a list sorted in descending update-time order, the pull-request
loop returns exactly the items not older than the cutoff. -/
theorem prLoop_eq_filter (parseTime : String → Int) (cutoff : Int)
    (data : List RawPR)
    (hsorted : data.Pairwise fun a b => parseTime b.updated_at ≤ parseTime a.updated_at) :
    prLoop parseTime cutoff data
      = (data.filter fun pr => cutoff ≤ parseTime pr.updated_at).map toPRItem := by
  induction data with
  | nil => rfl
  | cons pr rest ih =>
    rw [List.pairwise_cons] at hsorted
    obtain ⟨hhead, htail⟩ := hsorted
    by_cases hc : parseTime pr.updated_at < cutoff
    · have hrest : (rest.filter fun pr => cutoff ≤ parseTime pr.updated_at) = [] := by
        apply List.filter_eq_nil_iff.mpr
        intro q hq
        simp only [decide_eq_true_eq]
        have := hhead q hq
        omega
      simp [prLoop, hc, List.filter_cons, not_le.mpr hc, hrest]
    · simp [prLoop, hc, List.filter_cons, not_lt.mp hc, ih htail]

/-- C4: on a pull-request page sorted in descending update-time order,
`get_pull_requests` returns exactly the items with
`updated_at ≥ now − lookback_days` in input order, excluding the first
older item and everything after it. -/
theorem get_pull_requests_cutoff (parseTime : String → Int) (now : Int)
    (days : Nat) (data : List RawPR)
    (hsorted : data.Pairwise fun a b => parseTime b.updated_at ≤ parseTime a.updated_at) :
    get_pull_requests parseTime now days data
      = (data.filter fun pr =>
          now - (days : Int) * 86400 ≤ parseTime pr.updated_at).map toPRItem
    ∧ get_pull_requests parseTime now days data
      = (data.takeWhile fun pr =>
          now - (days : Int) * 86400 ≤ parseTime pr.updated_at).map toPRItem :=
  ⟨prLoop_eq_filter parseTime _ data hsorted, prLoop_eq_takeWhile parseTime _ data⟩

/-- C4 witness: three sorted pull requests, lookback one day — the two
recent ones are kept, the old one and everything after it dropped. -/
theorem get_pull_requests_cutoff_witness :
    c4_data.Pairwise (fun a b => demo_parse b.updated_at ≤ demo_parse a.updated_at)
    ∧ get_pull_requests demo_parse 86550 1 c4_data
        = (c4_data.filter fun pr =>
            86550 - (1 : Int) * 86400 ≤ demo_parse pr.updated_at).map toPRItem
    ∧ get_pull_requests demo_parse 86550 1 c4_data
        = [toPRItem (c4_pr 3 "300"), toPRItem (c4_pr 2 "200")] :=
  ⟨by decide, (get_pull_requests_cutoff demo_parse 86550 1 c4_data (by decide)).1,
    by decide⟩

/-- When an entry with the same `(owner, repo)` exists, `add_subscription`
returns the list unchanged. -/
theorem add_subscription_existing (subs : List Subscription) (o r l : String)
    (t : Option (List String))
    (h : (subs.any fun s => s.owner == o && s.repo == r) = true) :
    add_subscription subs o r l t = subs := by
  unfold add_subscription
  rw [h]
  rfl

/-- When no entry with the same `(owner, repo)` exists, `add_subscription`
appends the new entry. -/
theorem add_subscription_new (subs : List Subscription) (o r l : String)
    (t : Option (List String))
    (h : (subs.any fun s => s.owner == o && s.repo == r) = false) :
    add_subscription subs o r l t = subs ++ [mk_entry o r l (t.getD default_track)] := by
  unfold add_subscription
  rw [h]
  rfl

/-- C5: adding the same `(owner, repo)` a second time leaves the list
unchanged, so exactly one entry for that pair remains, carrying the first
call's label and tracked categories. -/
theorem add_subscription_idempotent (subs : List Subscription) (o r l1 l2 : String)
    (t1 t2 : Option (List String))
    (h : (subs.any fun s => s.owner == o && s.repo == r) = false) :
    add_subscription (add_subscription subs o r l1 t1) o r l2 t2
      = add_subscription subs o r l1 t1
    ∧ ((add_subscription (add_subscription subs o r l1 t1) o r l2 t2).filter
        fun s => s.owner == o && s.repo == r)
      = [mk_entry o r l1 (t1.getD default_track)] := by
  have hmatch : ((mk_entry o r l1 (t1.getD default_track)).owner == o
      && (mk_entry o r l1 (t1.getD default_track)).repo == r) = true := by
    simp [mk_entry]
  have hfirst := add_subscription_new subs o r l1 t1 h
  have hany : ((add_subscription subs o r l1 t1).any
      fun s => s.owner == o && s.repo == r) = true := by
    rw [hfirst, List.any_append]
    simp [hmatch]
  have hsecond := add_subscription_existing (add_subscription subs o r l1 t1) o r l2 t2 hany
  refine ⟨hsecond, ?_⟩
  rw [hsecond, hfirst, List.filter_append]
  have hnil : (subs.filter fun s => s.owner == o && s.repo == r) = [] := by
    apply List.filter_eq_nil_iff.mpr
    intro q hq
    have := List.any_eq_false.mp h q hq
    simp_all
  simp [hnil, hmatch]

/-- C5 witness: two adds of `acme/widget` on an empty list keep exactly
the first entry with its label and categories. -/
theorem add_subscription_idempotent_witness :
    (([] : List Subscription).any fun s => s.owner == "acme" && s.repo == "widget") = false
    ∧ add_subscription (add_subscription [] "acme" "widget" "W1" (some ["releases"]))
        "acme" "widget" "W2" none
      = add_subscription [] "acme" "widget" "W1" (some ["releases"])
    ∧ ((add_subscription (add_subscription [] "acme" "widget" "W1" (some ["releases"]))
        "acme" "widget" "W2" none).filter
        fun s => s.owner == "acme" && s.repo == "widget")
      = [mk_entry "acme" "widget" "W1" ((some ["releases"]).getD default_track)] := by
  have h := add_subscription_idempotent [] "acme" "widget" "W1" "W2"
    (some ["releases"]) none rfl
  exact ⟨rfl, h.1, h.2⟩

/-- A Python slice `s[:n]` has at most `n` characters. -/
theorem str_take_length_le (s : String) (n : Nat) : (str_take s n).length ≤ n :=
  List.length_take_le n s.data

/-- C8: for a subscription tracking only releases, `FetchResult.items` is
exactly the normalized releases in the order the remote returned them;
the result is independent of the lookback window and clock (not
time-windowed), every body is truncated to at most 500 characters, and
the request carries only `per_page` (defaulting to 5), never `since`. -/
theorem releases_fetch_spec (parseTime : String → Int) (remote : Remote)
    (now now' : Int) (days days' : Nat) (fa fa' : String) (sub : SubscriptionDict)
    (h : sub.track = some ["releases"]) :
    (fetch_updates parseTime remote now days fa sub).items
      = remote.releases.map (fun r => UpdateItem.release (toReleaseItem r))
    ∧ (fetch_updates parseTime remote now days fa sub).items
      = (fetch_updates parseTime remote now' days' fa' sub).items
    ∧ (∀ it ∈ get_releases remote.releases, it.body.length ≤ 500)
    ∧ releases_request_params DEFAULT_RELEASE_LIMIT = [("per_page", "5")]
    ∧ (∀ limit : Nat, ∀ kv ∈ releases_request_params limit, kv.1 ≠ "since") := by
  have hitems : (fetch_updates parseTime remote now days fa sub).items
      = remote.releases.map fun r => UpdateItem.release (toReleaseItem r) := by
    simp [fetch_updates, h, get_releases]
  have hitems' : (fetch_updates parseTime remote now' days' fa' sub).items
      = remote.releases.map fun r => UpdateItem.release (toReleaseItem r) := by
    simp [fetch_updates, h, get_releases]
  refine ⟨hitems, hitems.trans hitems'.symm, ?_, rfl, ?_⟩
  · intro it hit
    obtain ⟨r, _, rfl⟩ := List.mem_map.mp hit
    exact str_take_length_le _ 500
  · intro limit kv hkv
    simp [releases_request_params] at hkv
    rw [hkv]
    simp

/-- C8 witness: a remote returning two releases yields exactly those two
release entries, in order, with the `null` body mapped to the empty
string. -/
theorem releases_fetch_spec_witness :
    c8_sub.track = some ["releases"]
    ∧ (fetch_updates demo_parse c8_remote 0 1 "t" c8_sub).items
        = c8_remote.releases.map (fun r => UpdateItem.release (toReleaseItem r))
    ∧ (fetch_updates demo_parse c8_remote 0 1 "t" c8_sub).items
        = [UpdateItem.release ⟨"v1", "one", "u1", "p1", "b1"⟩,
           UpdateItem.release ⟨"v2", "two", "u2", "p2", ""⟩] :=
  ⟨rfl, (releases_fetch_spec demo_parse c8_remote 0 0 1 1 "t" "t" c8_sub rfl).1,
    by decide⟩

/-- C9: a scheduler built from a parsed `HH:MM` time computes, for
`weekly`, a trigger firing exactly on Monday at that hour and minute,
and for `daily` a trigger firing every day at that hour and minute. -/
theorem scheduler_trigger_spec (time_str : String) (h m : Nat)
    (hp : parse_time_str time_str = some (h, m)) :
    (mk_scheduler "weekly" time_str).map scheduler_trigger
      = some (Trigger.cron (some 0) h m)
    ∧ (mk_scheduler "daily" time_str).map scheduler_trigger
      = some (Trigger.cron none h m)
    ∧ (∀ i : Instant,
        trigger_fires (Trigger.cron (some 0) h m) i = true
          ↔ i.weekday = 0 ∧ i.hour = h ∧ i.minute = m)
    ∧ (∀ i : Instant,
        trigger_fires (Trigger.cron none h m) i = true
          ↔ i.hour = h ∧ i.minute = m) := by
  refine ⟨?_, ?_, ?_, ?_⟩
  · simp [mk_scheduler, hp, scheduler_trigger, build_trigger]
  · simp [mk_scheduler, hp, scheduler_trigger, build_trigger]
  · intro i
    simp [trigger_fires, Bool.and_eq_true, and_assoc]
  · intro i
    simp [trigger_fires, Bool.and_eq_true]

/-- C9 witness: the scheduler scenario at `"08:00"`. -/
theorem scheduler_trigger_spec_witness :
    parse_time_str "08:00" = some (8, 0)
    ∧ ((mk_scheduler "weekly" "08:00").map scheduler_trigger
        = some (Trigger.cron (some 0) 8 0)
      ∧ (mk_scheduler "daily" "08:00").map scheduler_trigger
        = some (Trigger.cron none 8 0)
      ∧ (∀ i : Instant,
          trigger_fires (Trigger.cron (some 0) 8 0) i = true
            ↔ i.weekday = 0 ∧ i.hour = 8 ∧ i.minute = 0)
      ∧ (∀ i : Instant,
          trigger_fires (Trigger.cron none 8 0) i = true
            ↔ i.hour = 8 ∧ i.minute = 0)) :=
  ⟨by decide, scheduler_trigger_spec "08:00" 8 0 (by decide)⟩

/-- C10: a subscription dict without a `track` key fetches all four
categories and concatenates their items in the fixed order releases,
issues, pull_requests, commits. -/
theorem fetch_updates_default_track_all_categories (parseTime : String → Int)
    (remote : Remote) (now : Int) (days : Nat) (fa : String)
    (sub : SubscriptionDict) (h : sub.track = none) :
    (fetch_updates parseTime remote now days fa sub).items
      = (get_releases remote.releases).map UpdateItem.release
        ++ (get_issues remote.issues).map UpdateItem.issue
        ++ (get_pull_requests parseTime now days remote.pulls).map UpdateItem.pull_request
        ++ (get_commits remote.commits).map UpdateItem.commit := by
  simp [fetch_updates, h]

/-- C10 witness: an absent `track` key on a remote with one element of
each kind fetches all four categories in the fixed order (the
pull-request-flavored issue filtered out, the sha and commit message
normalized). -/
theorem fetch_updates_default_track_all_categories_witness :
    c10_sub.track = none
    ∧ (fetch_updates demo_parse c10_remote 800 1 "t" c10_sub).items
        = (get_releases c10_remote.releases).map UpdateItem.release
          ++ (get_issues c10_remote.issues).map UpdateItem.issue
          ++ (get_pull_requests demo_parse 800 1 c10_remote.pulls).map UpdateItem.pull_request
          ++ (get_commits c10_remote.commits).map UpdateItem.commit
    ∧ (fetch_updates demo_parse c10_remote 800 1 "t" c10_sub).items
        = [UpdateItem.release ⟨"v9", "nine", "ru", "rp", "rb"⟩,
           UpdateItem.issue ⟨4, "iss", "open", "iu", "ic", "iup", "dave"⟩,
           UpdateItem.pull_request ⟨7, "t", "open", "u", "c", "700", "alice", false⟩,
           UpdateItem.commit ⟨"0123456", "first", "cu2", "cd2", "frank"⟩] :=
  ⟨rfl, fetch_updates_default_track_all_categories demo_parse c10_remote 800 1 "t"
    c10_sub rfl, by decide⟩

/-- C3: `FileNotifier.send` declares no `repo_slug` parameter, so the
keyword arguments the reporting loops pass are rejected (a `TypeError`
at every call), and the file it would write is named with the fixed
`report` prefix and no slug; the header (H1 title, generation-time line,
horizontal rule) does match the intended format. -/
theorem send_signature_mismatch :
    kwargs_accepted fileNotifier_send_params run_once_send_kwargs = false
    ∧ (fileNotifier_send "body" "acme/widget 报告" "20261012_080000" "2026-10-12 08:00:00 UTC")
      = ⟨"report_20261012_080000.md",
         "# acme/widget 报告\n\n生成时间：2026-10-12 08:00:00 UTC\n\n---\n\nbody"⟩ :=
  ⟨rfl, rfl⟩

end Sentinel
